import Mathlib

/-!
# MediBot serverless handlers — verification development

A shallow embedding of the repository's serverless request handlers
(`skin-analyze`, `scan-medicine`, `explain-diagnosis`, the two
`find-doctors` variants, `send-customer-email`), of the doctor-finder UI
helpers (`searchDoctors` reshaping, `formatPhone`) and of the customer-care
chat widget's state machine, together with theorems settling the spec's
claims about them.

Conventions of the embedding:
* JavaScript values that may be `undefined`/`null` are `Option` values;
  JS truthiness on strings (`""` falsy) and numbers (`0` falsy) is spelled
  out by the `truthy*` helpers, and `a || b` chains by `jsOr` helpers.
* Each handler is a pure function from a "world" record that packages the
  incoming request together with the outcomes of the external primitives
  the handler awaits (body parsing, which may throw; the outbound `fetch`,
  which may reject; the environment's API keys).  A `fetch` outcome is
  `Except String Upstream` — `.error` models a rejected promise whose
  `Error.message` is the payload string.
* Each handler returns its `HttpResponse` paired with the number of
  outbound HTTP requests it performed, so request-count properties are
  directly statable.
* `try { .. } catch` is embedded by making every `throw` site return the
  response that the enclosing `catch` block builds from the thrown message.
-/

namespace MediBot

/-- Transported JSON values (response bodies and reshaped payloads).
Numbers are modelled as integers: the handlers only move numeric fields
around, no claim depends on non-integral numerics. -/
inductive Json where
  | null : Json
  | bool : Bool → Json
  | num : Int → Json
  | str : String → Json
  | arr : List Json → Json
  | obj : List (String × Json) → Json
deriving Repr, Inhabited

/-- JS truthiness of a string: `""` is falsy. -/
def truthyS (s : String) : Bool := s ≠ ""

/-- JS truthiness of a possibly-undefined string (`undefined` and `""` falsy). -/
def truthyO (o : Option String) : Bool :=
  match o with
  | none => false
  | some s => s ≠ ""

/-- JS truthiness of a possibly-undefined number (`undefined` and `0` falsy). -/
def truthyN (o : Option Int) : Bool :=
  match o with
  | none => false
  | some n => n ≠ 0

/-- JS truthiness of a JSON value (for fields of unconstrained shape):
`null`, `false`, `0` and `""` are falsy, arrays and objects truthy. -/
def truthyJ (o : Option Json) : Bool :=
  match o with
  | none => false
  | some .null => false
  | some (.bool b) => b
  | some (.num n) => n ≠ 0
  | some (.str s) => s ≠ ""
  | some (.arr _) => true
  | some (.obj _) => true

/-- `a || b` on possibly-undefined strings: the left operand when truthy. -/
def jsOrO (a b : Option String) : Option String := if truthyO a then a else b

/-- `a || d` with a string literal default, as in `x || "placeholder"`. -/
def jsOrS (a : Option String) (d : String) : String :=
  match a with
  | none => d
  | some s => if s = "" then d else s

/-- `a || b` on possibly-undefined numbers. -/
def jsOrN (a b : Option Int) : Option Int := if truthyN a then a else b

/-- `a || b` on possibly-undefined JSON values. -/
def jsOrJ (a b : Option Json) : Option Json := if truthyJ a then a else b

/-- The response headers the handlers set: the two CORS headers, the
optional `Access-Control-Allow-Methods`, and the content type. -/
structure Headers where
  allowOrigin : Option String := none
  allowHeaders : Option String := none
  allowMethods : Option String := none
  contentType : Option String := none
deriving Repr, DecidableEq

/-- A returned HTTP response: status, optional JSON body, headers.
`new Response(null, ..)` defaults to status 200 with no body. -/
structure HttpResponse where
  status : Nat
  body : Option Json
  headers : Headers
deriving Repr

/-- The `{ "error": message }` body every failure branch returns. -/
def errObj (msg : String) : Json := .obj [("error", .str msg)]

/-- Build a JSON response: the source spreads the CORS constant and adds
`'Content-Type': 'application/json'`. -/
def jsonResp (status : Nat) (body : Json) (hs : Headers) : HttpResponse :=
  { status := status, body := some body,
    headers := { hs with contentType := some "application/json" } }

/-- `Response.ok`: status in the 200–299 range. -/
def httpOk (status : Nat) : Bool := decide (200 ≤ status ∧ status < 300)

/-- Character-list prefix test (structural, so the kernel can evaluate it). -/
def hasPrefixChars : List Char → List Char → Bool
  | [], _ => true
  | _ :: _, [] => false
  | a :: as, b :: bs => (a = b) && hasPrefixChars as bs

/-- Contiguous-occurrence test on character lists. -/
def containsChars : List Char → List Char → Bool
  | hay, sub =>
    hasPrefixChars sub hay ||
      (match hay with
       | [] => false
       | _ :: t => containsChars t sub)

/-- JS `String.prototype.includes`: substring containment. -/
def strIncludes (s sub : String) : Bool := containsChars s.data sub.data

/-- JS `String.prototype.trim`, modelled on the character list (strip
whitespace from both ends); structural so the kernel can evaluate it. -/
def jsTrim (s : String) : String :=
  String.mk (((s.data.dropWhile Char.isWhitespace).reverse.dropWhile
    Char.isWhitespace).reverse)

/-- JS `String.prototype.toLowerCase`, modelled on the character list. -/
def jsToLower (s : String) : String := String.mk (s.data.map Char.toLower)

/-! ## Base64 (`arrayBufferToBase64`, skin-analyze lines 19–24)

The source converts the buffer to a binary string with `String.fromCharCode`
and applies `btoa`; the composite maps the byte list to the standard base64
encoding.  We model it with a byte-level encoder producing character codes
(so `65` is `A`, `61` is the pad `=`), plus a decoder used to state the
round-trip claim. -/

/-- The base64 alphabet as character codes: index 0–25 ↦ `A`–`Z`,
26–51 ↦ `a`–`z`, 52–61 ↦ `0`–`9`, 62 ↦ `+`, 63 ↦ `/`. -/
def b64Code (n : Nat) : Nat :=
  if n < 26 then 65 + n
  else if n < 52 then 71 + n
  else if n < 62 then n - 4
  else if n = 62 then 43
  else 47

/-- Inverse of `b64Code` on character codes; `none` off the alphabet
(in particular on the pad `=`, code 61). -/
def b64DecCode (c : Nat) : Option Nat :=
  if 65 ≤ c ∧ c ≤ 90 then some (c - 65)
  else if 97 ≤ c ∧ c ≤ 122 then some (c - 71)
  else if 48 ≤ c ∧ c ≤ 57 then some (c + 4)
  else if c = 43 then some 62
  else if c = 47 then some 63
  else none

/-- Base64-encode a byte list to character codes, three bytes to four
characters, padding a final 1- or 2-byte group with `=` (code 61). -/
def b64EncCodes : List Nat → List Nat
  | [] => []
  | [a] => [b64Code (a / 4), b64Code (a % 4 * 16), 61, 61]
  | [a, b] => [b64Code (a / 4), b64Code (a % 4 * 16 + b / 16), b64Code (b % 16 * 4), 61]
  | a :: b :: c :: rest =>
      b64Code (a / 4) :: b64Code (a % 4 * 16 + b / 16) ::
      b64Code (b % 16 * 4 + c / 64) :: b64Code (c % 64) :: b64EncCodes rest

/-- Base64-decode character codes back to bytes; `none` on any string that
is not a padded four-character-group encoding. -/
def b64DecCodes : List Nat → Option (List Nat)
  | [] => some []
  | c1 :: c2 :: c3 :: c4 :: rest =>
      match b64DecCode c1, b64DecCode c2 with
      | some d1, some d2 =>
          if c3 = 61 ∧ c4 = 61 ∧ rest = [] then
            some [d1 * 4 + d2 / 16]
          else
            match b64DecCode c3 with
            | some d3 =>
                if c4 = 61 ∧ rest = [] then
                  some [d1 * 4 + d2 / 16, d2 % 16 * 16 + d3 / 4]
                else
                  match b64DecCode c4, b64DecCodes rest with
                  | some d4, some bs =>
                      some ((d1 * 4 + d2 / 16) :: (d2 % 16 * 16 + d3 / 4) ::
                            (d3 % 4 * 64 + d4) :: bs)
                  | _, _ => none
            | none => none
      | _, _ => none
  | _ => none

/-- `arrayBufferToBase64`: bytes of the uploaded file to a base64 string. -/
def arrayBufferToBase64 (bytes : List Nat) : String :=
  String.mk ((b64EncCodes bytes).map Char.ofNat)

/-- String-level base64 decoder (the stated inverse for the round trip). -/
def b64DecodeString (s : String) : Option (List Nat) :=
  b64DecCodes (s.data.map Char.toNat)

/-! ## Handler: `scan-medicine` (supabase/functions/scan-medicine, first file)

CORS constant without `Allow-Methods`; `{ image, language = 'en' }` body;
`!image` → 400; missing `LOVABLE_API_KEY` → throw; one fetch to the AI
gateway; upstream 429 passed through, any other non-ok status → throw
`API error: <status>`; success → 200 `{ result }`; catch → 500 with the
thrown `Error`'s message. -/

/-- The CORS constant shared by scan-medicine and both find-doctors files. -/
def corsHeadersPlain : Headers :=
  { allowOrigin := some "*",
    allowHeaders := some "authorization, x-client-info, apikey, content-type" }

/-- The CORS constant of explain-diagnosis and send-customer-email’s base
(explain-diagnosis adds `Access-Control-Allow-Methods`). -/
def corsHeadersWithMethods : Headers :=
  { allowOrigin := some "*",
    allowHeaders := some "authorization, x-client-info, apikey, content-type",
    allowMethods := some "POST, OPTIONS" }

/-- Parsed request body of scan-medicine: `{ image, language = 'en' }`. -/
structure ScanMedicineBody where
  image : Option String := none
  language : Option String := none

/-- Outcome of the one fetch to the AI gateway, as the handler reads it:
the response status, the error text of a failed response, and
`data.choices?.[0]?.message?.content` of a successful one. -/
structure AiUpstream where
  status : Nat := 200
  errorText : String := ""
  content : Option String := none

/-- The inputs of one scan-medicine invocation: request method, the
outcome of `req.json()`, the `LOVABLE_API_KEY` environment value, and the
outcome of the outbound fetch. -/
structure ScanMedicineWorld where
  method : String := "POST"
  bodyJson : Except String ScanMedicineBody := .ok {}
  apiKey : Option String := none
  upstream : Except String AiUpstream := .ok {}

/-- The scan-medicine handler; second component counts outbound fetches. -/
def scanMedicine (w : ScanMedicineWorld) : HttpResponse × Nat :=
  if w.method = "OPTIONS" then
    ({ status := 200, body := none, headers := corsHeadersPlain }, 0)
  else
    match w.bodyJson with
    | .error e => (jsonResp 500 (errObj e) corsHeadersPlain, 0)
    | .ok b =>
      if ¬ truthyO b.image then
        (jsonResp 400 (errObj "No image provided") corsHeadersPlain, 0)
      else if ¬ truthyO w.apiKey then
        -- `throw new Error('LOVABLE_API_KEY is not configured')`, caught below
        (jsonResp 500 (errObj "LOVABLE_API_KEY is not configured") corsHeadersPlain, 0)
      else
        match w.upstream with
        | .error e => (jsonResp 500 (errObj e) corsHeadersPlain, 1)
        | .ok u =>
          if ¬ httpOk u.status then
            if u.status = 429 then
              (jsonResp 429 (errObj "Rate limit exceeded. Please try again later.")
                corsHeadersPlain, 1)
            else
              -- `throw new Error(`API error: ${response.status}`)`, caught below
              (jsonResp 500 (errObj ("API error: " ++ toString u.status))
                corsHeadersPlain, 1)
          else
            (jsonResp 200 (.obj [("result",
                match u.content with | some s => .str s | none => .null)])
              corsHeadersPlain, 1)

/-! ## Handler: `explain-diagnosis` (supabase/functions/scan-medicine, second file)

OPTIONS → CORS; non-POST → 405; missing key → 500 (returned, before body
parsing); `!disease` → 400; one fetch; 429 → 429, 402 → 402, other non-ok
→ 502; missing, non-string or empty `content` → 502; Q&A (`question` truthy)
→ 200 `{ answer }`; otherwise `JSON.parse(content)`: success → 200 with
the parsed object, failure → 200 with the fallback object; catch → 500
`"Unknown error occurred"`. -/

/-- Parsed request body of explain-diagnosis. -/
structure ExplainBody where
  disease : Option String := none
  confidence : Option Int := none
  symptoms : Option String := none
  question : Option String := none
  language : Option String := none

/-- AI-gateway outcome as explain-diagnosis reads it: status, the content
string (none also covers a non-string content), and the outcome of
`JSON.parse(content)` (`none` models a parse exception). -/
structure ExplainUpstream where
  status : Nat := 200
  content : Option String := none
  parsedContent : Option Json := none

/-- The inputs of one explain-diagnosis invocation. -/
structure ExplainWorld where
  method : String := "POST"
  apiKey : Option String := none
  bodyJson : Except String ExplainBody := .ok {}
  upstream : Except String ExplainUpstream := .ok {}

/-- The explain-diagnosis handler. -/
def explainDiagnosis (w : ExplainWorld) : HttpResponse × Nat :=
  if w.method = "OPTIONS" then
    ({ status := 200, body := none, headers := corsHeadersWithMethods }, 0)
  else if w.method ≠ "POST" then
    (jsonResp 405 (errObj "Method not allowed") corsHeadersWithMethods, 0)
  else if ¬ truthyO w.apiKey then
    (jsonResp 500 (errObj "AI configuration error") corsHeadersWithMethods, 0)
  else
    match w.bodyJson with
    | .error _ => (jsonResp 500 (errObj "Unknown error occurred") corsHeadersWithMethods, 0)
    | .ok b =>
      if ¬ truthyO b.disease then
        (jsonResp 400 (errObj "Disease name is required") corsHeadersWithMethods, 0)
      else
        match w.upstream with
        | .error _ =>
          (jsonResp 500 (errObj "Unknown error occurred") corsHeadersWithMethods, 1)
        | .ok u =>
          if ¬ httpOk u.status then
            if u.status = 429 then
              (jsonResp 429 (errObj "Rate limit exceeded. Please try again later.")
                corsHeadersWithMethods, 1)
            else if u.status = 402 then
              (jsonResp 402 (errObj "AI credits exhausted. Please add credits.")
                corsHeadersWithMethods, 1)
            else
              (jsonResp 502 (errObj "AI explanation service error")
                corsHeadersWithMethods, 1)
          else
            -- `if (!content || typeof content !== "string")` → 502: `none`
            -- models a missing or non-string content, `some ""` the falsy one
            match u.content with
            | none =>
              (jsonResp 502 (errObj "Invalid AI response") corsHeadersWithMethods, 1)
            | some content =>
              if content = "" then
                (jsonResp 502 (errObj "Invalid AI response") corsHeadersWithMethods, 1)
              else if truthyO b.question then
                (jsonResp 200 (.obj [("answer", .str content)]) corsHeadersWithMethods, 1)
              else
                match u.parsedContent with
                | some result => (jsonResp 200 result corsHeadersWithMethods, 1)
                | none =>
                  (jsonResp 200 (.obj [
                      ("explanation", .str content),
                      ("recommendations", .arr []),
                      ("causes", .arr []),
                      ("precautions", .arr []),
                      ("severity", .str "Unknown"),
                      ("suggestedDoctor", .str "Dermatologist")])
                    corsHeadersWithMethods, 1)

/-! ## Handler: `skin-analyze` (supabase/functions/skin-analyze)

`withCors` echoes the request origin into `Access-Control-Allow-Origin`;
non-POST → 405; missing key → 500 (returned); `req.formData()` may throw;
missing file → 400; empty trimmed symptoms → 400; the image is forwarded
as a `data:<mime>;base64,...` URL with mime defaulting to `image/jpeg`;
any non-ok upstream status → 502; missing, non-string or empty content → 502;
unparseable content JSON → 502; success → 200 with the parsed result
(after coercing a numeric-string `confidence`); catch → 500 `"Unknown error"`. -/

/-- `withCors`: the base headers with `Allow-Origin` replaced by the
request's `origin` header when present (`?? "*"`). -/
def withCors (origin : Option String) (contentType : Option String := none) : Headers :=
  { allowOrigin := some (origin.getD "*"),
    allowHeaders := some "authorization, x-client-info, apikey, content-type",
    allowMethods := some "POST, OPTIONS",
    contentType := contentType }

/-- The uploaded `File`: its `type` (MIME, `""` when absent) and bytes. -/
structure FileData where
  type : String := ""
  bytes : List Nat := []

/-- Parsed form data of skin-analyze: the `file` entry (`none` when
missing or not a `File`) and the raw `symptoms` and `language` strings. -/
structure SkinForm where
  file : Option FileData := none
  symptoms : Option String := none
  language : Option String := none

/-- The inputs of one skin-analyze invocation. -/
structure SkinWorld where
  method : String := "POST"
  origin : Option String := none
  apiKey : Option String := none
  form : Except String SkinForm := .ok {}
  upstream : Except String ExplainUpstream := .ok {}

/-- `const mime = file.type || "image/jpeg"`. -/
def skinMime (f : FileData) : String := if f.type = "" then "image/jpeg" else f.type

/-- The data URL forwarded to the AI gateway (skin-analyze lines 95–98). -/
def skinDataUrl (f : FileData) : String :=
  "data:" ++ skinMime f ++ ";base64," ++ arrayBufferToBase64 f.bytes

/-- The light `confidence` normalization (skin-analyze lines 156–159):
a numeric string is coerced to a number.  JS `Number()` is modelled on
integer numerals (`String.toInt?`); no claim depends on wider numerics. -/
def normalizeConfidence (j : Json) : Json :=
  match j with
  | .obj fields =>
      .obj (fields.map (fun kv =>
        if kv.1 = "confidence" then
          match kv.2 with
          | .str s => match s.toInt? with
                      | some n => ("confidence", .num n)
                      | none => kv
          | _ => kv
        else kv))
  | _ => j

/-- The skin-analyze handler.  The third component records the data URL
sent to the AI gateway, when the fetch was reached. -/
def skinAnalyze (w : SkinWorld) : HttpResponse × Nat × Option String :=
  if w.method = "OPTIONS" then
    ({ status := 200, body := none, headers := withCors w.origin }, 0, none)
  else if w.method ≠ "POST" then
    (jsonResp 405 (errObj "Method not allowed") (withCors w.origin), 0, none)
  else if ¬ truthyO w.apiKey then
    (jsonResp 500 (errObj "AI configuration error") (withCors w.origin), 0, none)
  else
    match w.form with
    | .error _ => (jsonResp 500 (errObj "Unknown error") (withCors w.origin), 0, none)
    | .ok form =>
      if form.file.isNone then
        (jsonResp 400 (errObj "Image file is required") (withCors w.origin), 0, none)
      else
        let file := form.file.getD {}
        let symptoms := jsTrim (form.symptoms.getD "")
        if symptoms = "" then
          (jsonResp 400 (errObj "Symptoms are required") (withCors w.origin), 0, none)
        else
          let dataUrl := skinDataUrl file
          match w.upstream with
          | .error _ =>
            (jsonResp 500 (errObj "Unknown error") (withCors w.origin), 1, some dataUrl)
          | .ok u =>
            if ¬ httpOk u.status then
              (jsonResp 502 (errObj "Analysis service error") (withCors w.origin),
                1, some dataUrl)
            else
              -- `if (!content || typeof content !== "string")` → 502: `none`
              -- models a missing or non-string content, `some ""` the falsy one
              match u.content with
              | none =>
                (jsonResp 502 (errObj "Invalid analysis response") (withCors w.origin),
                  1, some dataUrl)
              | some content =>
                if content = "" then
                  (jsonResp 502 (errObj "Invalid analysis response") (withCors w.origin),
                    1, some dataUrl)
                else
                  match u.parsedContent with
                  | none =>
                    (jsonResp 502 (errObj "Invalid analysis JSON") (withCors w.origin),
                      1, some dataUrl)
                  | some result =>
                    (jsonResp 200 (normalizeConfidence result) (withCors w.origin),
                      1, some dataUrl)

/-! ## NPI doctor reshaping

Shared verbatim between the `find-doctors` NPI edge function
(supabase/functions/scan-medicine, third file, lines 383–403) and the
DoctorFinder component's `searchDoctors` (lines 68–86): pick the
`LOCATION` address (else the first address, else `{}`), then default every
missing field to its placeholder. -/

/-- `result.basic` of an NPI record. -/
structure NpiBasic where
  first_name : Option String := none
  last_name : Option String := none
  credential : Option String := none

/-- One entry of `result.addresses`. -/
structure NpiAddress where
  address_purpose : Option String := none
  address_1 : Option String := none
  city : Option String := none
  state : Option String := none
  postal_code : Option String := none
  telephone_number : Option String := none

/-- One entry of `result.taxonomies`. -/
structure NpiTaxonomy where
  desc : Option String := none

/-- One record of `data.results` from the NPI registry. -/
structure NpiResult where
  basic : Option NpiBasic := none
  addresses : Option (List NpiAddress) := none
  taxonomies : Option (List NpiTaxonomy) := none

/-- The reshaped doctor record of the NPI handler and component. -/
structure NpiDoctor where
  name : String
  specialty : String
  address : String
  city : String
  state : String
  zip : String
  phone : String
deriving Repr, DecidableEq

/-- `result.addresses?.find(a => a.address_purpose === "LOCATION") ||
result.addresses?.[0] || {}`. -/
def selectNpiAddress (addrs : Option (List NpiAddress)) : NpiAddress :=
  match addrs with
  | none => {}
  | some l =>
    match l.find? (fun a => decide (a.address_purpose = some "LOCATION")) with
    | some a => a
    | none =>
      match l.head? with
      | some a => a
      | none => {}

/-- Reshape one NPI record into a doctor card, defaulting missing fields. -/
def formatNpiDoctor (r : NpiResult) : NpiDoctor :=
  let basic := r.basic.getD {}
  let address := selectNpiAddress r.addresses
  let firstName := jsOrS basic.first_name ""
  let lastName := jsOrS basic.last_name ""
  let credential := jsOrS basic.credential ""
  { name := "Dr. " ++ firstName ++ " " ++ lastName ++
      (if credential ≠ "" then ", " ++ credential else ""),
    specialty := jsOrS ((r.taxonomies.bind List.head?).bind NpiTaxonomy.desc) "Dermatology",
    address := jsOrS address.address_1 "Address not available",
    city := jsOrS address.city "",
    state := jsOrS address.state "",
    zip := jsOrS (address.postal_code.map (fun s => s.take 5)) "",
    phone := jsOrS address.telephone_number "Not available" }

/-! ## Handler: `find-doctors`, NPI variant (supabase/functions/scan-medicine, third file)

`{ zipCode, city }` body; both falsy → 400; one fetch to the NPI registry
(no API key); non-ok → throw `Failed to fetch from NPI Registry` → 500;
success → 200 `{ doctors }` with the reshaped records. -/

/-- Parsed request body of the NPI find-doctors handler. -/
structure NpiReqBody where
  zipCode : Option String := none
  city : Option String := none

/-- NPI registry fetch outcome: the status and `data.results`. -/
structure NpiUpstream where
  status : Nat := 200
  results : List NpiResult := []

/-- The inputs of one NPI find-doctors invocation. -/
structure FindDoctorsNpiWorld where
  method : String := "POST"
  bodyJson : Except String NpiReqBody := .ok {}
  upstream : Except String NpiUpstream := .ok {}

/-- Serialize the doctor list into the `{ doctors }` response body. -/
def npiDoctorJson (d : NpiDoctor) : Json :=
  .obj [("name", .str d.name), ("specialty", .str d.specialty),
        ("address", .str d.address), ("city", .str d.city),
        ("state", .str d.state), ("zip", .str d.zip), ("phone", .str d.phone)]

/-- The NPI find-doctors handler. -/
def findDoctorsNpi (w : FindDoctorsNpiWorld) : HttpResponse × Nat :=
  if w.method = "OPTIONS" then
    ({ status := 200, body := none, headers := corsHeadersPlain }, 0)
  else
    match w.bodyJson with
    | .error e => (jsonResp 500 (errObj e) corsHeadersPlain, 0)
    | .ok b =>
      if ¬ truthyO b.zipCode ∧ ¬ truthyO b.city then
        (jsonResp 400 (errObj "Please provide a zip code or city") corsHeadersPlain, 0)
      else
        match w.upstream with
        | .error e => (jsonResp 500 (errObj e) corsHeadersPlain, 1)
        | .ok u =>
          if ¬ httpOk u.status then
            -- `throw new Error("Failed to fetch from NPI Registry")`, caught below
            (jsonResp 500 (errObj "Failed to fetch from NPI Registry") corsHeadersPlain, 1)
          else
            (jsonResp 200 (.obj [("doctors",
                .arr (u.results.map (fun r => npiDoctorJson (formatNpiDoctor r))))])
              corsHeadersPlain, 1)

/-! ## Handler: `find-doctors`, Apify variant (src/unnamed/part_000, first file)

`{ pinCode, city }` body; both falsy → 400; missing `APIFY_API_KEY` → 500
(returned); one fetch to the Apify actor; non-ok → throw
`Failed to fetch from Apify` → 500; success → 200 `{ doctors }` with the
first five places reshaped. -/

/-- `place.location` of an Apify place.  Coordinates are modelled as
integers: only their truthiness (0 falsy) and printing are used. -/
structure ApifyLocation where
  lat : Option Int := none
  lng : Option Int := none
  address : Option String := none
  city : Option String := none

/-- One place record returned by the Apify Google Maps scraper. -/
structure ApifyPlace where
  title : Option String := none
  name : Option String := none
  address : Option String := none
  street : Option String := none
  city : Option String := none
  phone : Option String := none
  phoneUnformatted : Option String := none
  telephone : Option String := none
  url : Option String := none
  placeId : Option String := none
  location : Option ApifyLocation := none
  totalScore : Option Int := none
  rating : Option Int := none
  stars : Option Int := none
  reviewsCount : Option Int := none
  reviews : Option Int := none
  userRatingsTotal : Option Int := none
  openingHours : Option Json := none
  workHours : Option Json := none
  hours : Option Json := none

/-- The reshaped doctor record of the Apify handler. -/
structure ApifyDoctor where
  name : String
  specialty : String
  address : String
  city : String
  phone : Option String
  googleMapsLink : Option String
  rating : Option Int
  reviewCount : Option Int
  workingHours : Option Json

/-- The `googleMapsLink` construction: the place URL when non-empty, else
a place-id link, else a coordinate link, else `null`. -/
def apifyMapsLink (p : ApifyPlace) : Option String :=
  match p.url with
  | some u =>
    if u ≠ "" then some u else apifyMapsLinkFallback p
  | none => apifyMapsLinkFallback p
where
  apifyMapsLinkFallback (p : ApifyPlace) : Option String :=
    if truthyO p.placeId then
      some ("https://www.google.com/maps/place/?q=place_id:" ++ p.placeId.getD "")
    else if truthyN (p.location.bind ApifyLocation.lat) ∧
            truthyN (p.location.bind ApifyLocation.lng) then
      some ("https://www.google.com/maps?q=" ++
        toString ((p.location.bind ApifyLocation.lat).getD 0) ++ "," ++
        toString ((p.location.bind ApifyLocation.lng).getD 0))
    else none

/-- Reshape one Apify place into a doctor card (part_000 lines 89–99);
`reqCity` is the request's `city` field (a fallback for the place city). -/
def formatApifyPlace (reqCity : Option String) (p : ApifyPlace) : ApifyDoctor :=
  { name := jsOrS (jsOrO p.title p.name) "Unknown",
    specialty := "Dermatologist",
    address := jsOrS (jsOrO p.address (jsOrO p.street (p.location.bind ApifyLocation.address)))
      "Address not available",
    city := jsOrS (jsOrO p.city (jsOrO (p.location.bind ApifyLocation.city) reqCity)) "",
    phone := jsOrO p.phone (jsOrO p.phoneUnformatted (jsOrO p.telephone none)),
    googleMapsLink := apifyMapsLink p,
    rating := jsOrN p.totalScore (jsOrN p.rating (jsOrN p.stars none)),
    reviewCount := jsOrN p.reviewsCount (jsOrN p.reviews (jsOrN p.userRatingsTotal none)),
    workingHours := jsOrJ p.openingHours (jsOrJ p.workHours (jsOrJ p.hours none)) }

/-- Parsed request body of the Apify find-doctors handler. -/
structure ApifyReqBody where
  pinCode : Option String := none
  city : Option String := none

/-- Apify actor fetch outcome: the status and the dataset items. -/
structure ApifyUpstream where
  status : Nat := 200
  results : List ApifyPlace := []

/-- The inputs of one Apify find-doctors invocation. -/
structure FindDoctorsApifyWorld where
  method : String := "POST"
  bodyJson : Except String ApifyReqBody := .ok {}
  apifyKey : Option String := none
  upstream : Except String ApifyUpstream := .ok {}

/-- Serialize an Apify doctor card into JSON. -/
def apifyDoctorJson (d : ApifyDoctor) : Json :=
  .obj [("name", .str d.name), ("specialty", .str d.specialty),
        ("address", .str d.address), ("city", .str d.city),
        ("phone", match d.phone with | some s => .str s | none => .null),
        ("googleMapsLink", match d.googleMapsLink with | some s => .str s | none => .null),
        ("rating", match d.rating with | some n => .num n | none => .null),
        ("reviewCount", match d.reviewCount with | some n => .num n | none => .null),
        ("workingHours", d.workingHours.getD .null)]

/-- The Apify find-doctors handler. -/
def findDoctorsApify (w : FindDoctorsApifyWorld) : HttpResponse × Nat :=
  if w.method = "OPTIONS" then
    ({ status := 200, body := none, headers := corsHeadersPlain }, 0)
  else
    match w.bodyJson with
    | .error e => (jsonResp 500 (errObj e) corsHeadersPlain, 0)
    | .ok b =>
      if ¬ truthyO b.pinCode ∧ ¬ truthyO b.city then
        (jsonResp 400 (errObj "Please provide a pin code or city") corsHeadersPlain, 0)
      else if ¬ truthyO w.apifyKey then
        (jsonResp 500 (errObj "API configuration error") corsHeadersPlain, 0)
      else
        match w.upstream with
        | .error e => (jsonResp 500 (errObj e) corsHeadersPlain, 1)
        | .ok u =>
          if ¬ httpOk u.status then
            -- `throw new Error("Failed to fetch from Apify")`, caught below
            (jsonResp 500 (errObj "Failed to fetch from Apify") corsHeadersPlain, 1)
          else
            (jsonResp 200 (.obj [("doctors",
                .arr ((u.results.take 5).map
                  (fun p => apifyDoctorJson (formatApifyPlace b.city p))))])
              corsHeadersPlain, 1)

/-! ## Handler: `send-customer-email` (supabase/functions/send-customer-email)

`{ email, issue }` body; missing `RESEND_API_KEY` → throw; one fetch to the
Resend API; non-ok → throw `data.message || "Failed to send email"` → 500;
success → 200 `{ success: true, data }`; catch → 500 with the thrown
message.  The two files in the source differ only in the email content
they send upstream; the control flow embedded here is shared. -/

/-- Parsed request body of send-customer-email. -/
structure EmailReqBody where
  email : String := ""
  issue : String := ""

/-- Resend fetch outcome: status and the parsed response JSON, of which
only `data.message` steers control flow. -/
structure ResendUpstream where
  status : Nat := 200
  data : Json := .obj []
  message : Option String := none

/-- The inputs of one send-customer-email invocation. -/
structure SendEmailWorld where
  method : String := "POST"
  bodyJson : Except String EmailReqBody := .ok {}
  resendKey : Option String := none
  upstream : Except String ResendUpstream := .ok {}

/-- The send-customer-email handler. -/
def sendCustomerEmail (w : SendEmailWorld) : HttpResponse × Nat :=
  if w.method = "OPTIONS" then
    ({ status := 200, body := none, headers := corsHeadersPlain }, 0)
  else
    match w.bodyJson with
    | .error e => (jsonResp 500 (errObj e) corsHeadersPlain, 0)
    | .ok _ =>
      if ¬ truthyO w.resendKey then
        -- `throw new Error("RESEND_API_KEY not configured")`, caught below
        (jsonResp 500 (errObj "RESEND_API_KEY not configured") corsHeadersPlain, 0)
      else
        match w.upstream with
        | .error e => (jsonResp 500 (errObj e) corsHeadersPlain, 1)
        | .ok u =>
          if ¬ httpOk u.status then
            -- `throw new Error(data.message || "Failed to send email")`, caught below
            (jsonResp 500 (errObj (jsOrS u.message "Failed to send email"))
              corsHeadersPlain, 1)
          else
            (jsonResp 200 (.obj [("success", .bool true), ("data", u.data)])
              corsHeadersPlain, 1)

/-! ## DoctorFinder component: `formatPhone` (src/unnamed/part_004, lines 114–121) -/

/-- `formatPhone`: falsy input or the `"Not available"` placeholder is
returned unchanged; otherwise strip non-digits (`cleaned`, inlined here)
and, with exactly 10 digits left, print `(abc) def-ghij` (slices 0–3, 3–6
and 6–); otherwise return the input unchanged. -/
def formatPhone (phone : String) : String :=
  if phone = "" ∨ phone = "Not available" then phone
  else if (phone.data.filter Char.isDigit).length = 10 then
    "(" ++ String.mk ((phone.data.filter Char.isDigit).take 3) ++ ") " ++
      String.mk (((phone.data.filter Char.isDigit).drop 3).take 3) ++ "-" ++
      String.mk ((phone.data.filter Char.isDigit).drop 6)
  else phone

/-! ## Customer-care chat widget (src/unnamed/part_000, third file)

The widget's state is the React state of `CustomerCare`: the message
transcript, the text input, the `isReportingIssue` flag, the recorded
`reportedIssue` and the `email` field.  The wizard phases are read off
that state exactly as the component's input area does:
browsing (`!isReportingIssue`), reporting-issue (`isReportingIssue` with
no recorded issue) and collecting-email (`isReportingIssue &&
reportedIssue`).  The transient `isSending` flag and the toasts are UI
chrome with no bearing on the transitions and are not modelled. -/

/-- A transcript message: `true` for a bot message, with its content. -/
structure ChatMsg where
  isBot : Bool
  content : String
deriving Repr, DecidableEq

/-- The widget's state. -/
structure ChatState where
  messages : List ChatMsg
  input : String
  isReportingIssue : Bool
  reportedIssue : String
  email : String
deriving Repr, DecidableEq

/-- The seeded greeting message. -/
def chatGreeting : String :=
  "Hello! Welcome to MediBot Customer Care. How can I help you today? You can:\n\n• Ask about MediBot features\n• Report an issue you're facing\n\nJust type your message below!"

/-- The widget's initial state. -/
def initialChatState : ChatState :=
  { messages := [ChatMsg.mk true chatGreeting], input := "", isReportingIssue := false,
    reportedIssue := "", email := "" }

/-- The `featureInfo` table, in insertion order. -/
def featureInfo : List (String × String) :=
  [("skin analysis", "Our AI-powered Skin Analysis feature uses advanced image recognition to analyze skin conditions. Simply upload a photo of your skin concern, and our AI will provide insights about potential conditions, along with care recommendations."),
   ("doctor finder", "The Doctor Finder helps you locate dermatologists near you. Enter your pin code or city name, and we'll show you nearby skin specialists with their contact information, ratings, and Google Maps directions."),
   ("how to use", "To use MediBot: 1) Navigate to the Skin Analysis section and upload an image of your skin concern. 2) Our AI will analyze it and provide insights. 3) Use the Doctor Finder to locate dermatologists near you if needed."),
   ("features", "MediBot offers: 1) AI-Powered Skin Analysis - Upload images for condition detection 2) Doctor Finder - Locate dermatologists near you 3) Customer Care - Get help with any issues or questions."),
   ("accuracy", "Our AI model is trained on thousands of dermatological images and provides educational insights. However, it's not a substitute for professional medical advice. Always consult a dermatologist for accurate diagnosis."),
   ("privacy", "Your privacy is our priority. Images uploaded for analysis are processed securely and are not stored permanently. We do not share your data with third parties.")]

/-- `handleFeatureQuery`: the first table entry whose key occurs in the
lowercased query, else the `features` entry on a what/how/tell query.
Every table value is a non-empty string, so the caller's truthiness test
on the result coincides with `Option.isSome`. -/
def handleFeatureQuery (query : String) : Option String :=
  let lowerQuery := jsToLower query
  match featureInfo.find? (fun kv => strIncludes lowerQuery kv.1) with
  | some kv => some kv.2
  | none =>
    if strIncludes lowerQuery "what" || strIncludes lowerQuery "how" ||
        strIncludes lowerQuery "tell" then
      some ((featureInfo.lookup "features").getD "")
    else none

/-- The issue-keyword test of `handleSend` on the lowercased message. -/
def hasIssueKeyword (lowerMessage : String) : Bool :=
  strIncludes lowerMessage "report" || strIncludes lowerMessage "issue" ||
  strIncludes lowerMessage "problem" || strIncludes lowerMessage "bug" ||
  strIncludes lowerMessage "not working" || strIncludes lowerMessage "error"

/-- Bot reply when an issue keyword is recognized. -/
def issuePromptMsg : String :=
  "I'm sorry to hear you're facing an issue. Please describe the problem in detail, and I'll help you report it to our team."

/-- Bot reply when nothing is recognized. -/
def defaultHelpMsg : String :=
  "I can help you with:\n\n• Information about MediBot features (skin analysis, doctor finder, etc.)\n• Reporting issues or problems\n\nPlease let me know what you'd like to know!"

/-- Bot reply asking for the email address. -/
def emailPromptMsg : String :=
  "Thank you for describing the issue. To help you better and send you updates, please provide your email address:"

/-- Bot reply after a successful send. -/
def sentMsg (email : String) : String :=
  "Thank you! Your issue has been reported and our team has been notified. We'll review it and contact you at " ++
    email ++ " soon.\n\nIs there anything else I can help you with?"

/-- Bot reply after a failed send. -/
def sendFailedMsg : String :=
  "Sorry, there was an error sending the email. Please try again or contact us directly."

/-- `handleSend` (part_000 lines 291–335): empty input is ignored; the
message is appended and the input cleared; an issue keyword switches to
issue reporting; else a feature answer or the default help is appended. -/
def handleSend (st : ChatState) : ChatState :=
  if jsTrim st.input = "" then st
  else
    let userMessage := jsTrim st.input
    let st1 := { st with messages := st.messages ++ [ChatMsg.mk false userMessage], input := "" }
    let lowerMessage := jsToLower userMessage
    if hasIssueKeyword lowerMessage then
      { st1 with
        messages := st1.messages ++ [ChatMsg.mk true issuePromptMsg],
        isReportingIssue := true }
    else
      match handleFeatureQuery userMessage with
      | some featureResponse =>
        { st1 with messages := st1.messages ++ [ChatMsg.mk true featureResponse] }
      | none =>
        { st1 with messages := st1.messages ++ [ChatMsg.mk true defaultHelpMsg] }

/-- `handleIssueSubmit` (lines 337–350): empty input is ignored; otherwise
the trimmed input becomes the recorded issue and the email prompt follows. -/
def handleIssueSubmit (st : ChatState) : ChatState :=
  if jsTrim st.input = "" then st
  else
    { st with
      reportedIssue := jsTrim st.input,
      messages := st.messages ++ [ChatMsg.mk false (jsTrim st.input), ChatMsg.mk true emailPromptMsg],
      input := "" }

/-- `handleEmailSubmit` (lines 352–391): an invalid email is rejected;
otherwise the email message is appended and the issue is sent
(`sendOk` is the outcome of the `send-customer-email` invocation); on
success the wizard resets to browsing with issue and email cleared. -/
def handleEmailSubmit (st : ChatState) (sendOk : Bool) : ChatState :=
  if jsTrim st.email = "" ∨ ¬ strIncludes st.email "@" then st
  else
    let st1 := { st with messages := st.messages ++ [ChatMsg.mk false st.email] }
    if sendOk then
      { st1 with
        messages := st1.messages ++ [ChatMsg.mk true (sentMsg st.email)],
        isReportingIssue := false, reportedIssue := "", email := "" }
    else
      { st1 with messages := st1.messages ++ [ChatMsg.mk true sendFailedMsg] }

/-- The user-visible events: typing into the message box, typing into the
email box, and pressing send (whose submit handler the input area picks
exactly as the component renders it). -/
inductive ChatEvent where
  | typeInput : String → ChatEvent
  | typeEmail : String → ChatEvent
  | pressSend : Bool → ChatEvent

/-- One step of the widget: the send button dispatches to
`handleEmailSubmit` when `isReportingIssue && reportedIssue`, else to
`handleIssueSubmit` when `isReportingIssue`, else to `handleSend`. -/
def chatStep (st : ChatState) : ChatEvent → ChatState
  | .typeInput s => { st with input := s }
  | .typeEmail s => { st with email := s }
  | .pressSend sendOk =>
    if st.isReportingIssue ∧ st.reportedIssue ≠ "" then handleEmailSubmit st sendOk
    else if st.isReportingIssue then handleIssueSubmit st
    else handleSend st

/-- The browsing phase: not reporting an issue. -/
def browsing (st : ChatState) : Prop := st.isReportingIssue = false

/-- The reporting-issue phase: reporting, with no recorded description yet. -/
def reportingIssue (st : ChatState) : Prop :=
  st.isReportingIssue = true ∧ st.reportedIssue = ""

/-- The collecting-email phase: reporting, with a recorded description
(the component shows the email input exactly in this phase). -/
def collectingEmail (st : ChatState) : Prop :=
  st.isReportingIssue = true ∧ st.reportedIssue ≠ ""

/-- States reachable from the initial state through widget events. -/
inductive ChatReachable : ChatState → Prop where
  | init : ChatReachable initialChatState
  | step : ∀ {st : ChatState}, ChatReachable st → ∀ (e : ChatEvent), ChatReachable (chatStep st e)

/-! # Supporting lemmas -/

/-! ## Base64 arithmetic -/

/-- Decoding inverts the alphabet map on every 6-bit value. -/
theorem b64DecCode_b64Code : ∀ n, n < 64 → b64DecCode (b64Code n) = some n := by decide

/-- The alphabet never produces the pad character `=` (code 61). -/
theorem b64Code_ne_61 : ∀ n, n < 64 → b64Code n ≠ 61 := by decide

/-- Alphabet codes are below 123 (`z`), hence valid character codes. -/
theorem b64Code_lt_123 : ∀ n, n < 64 → b64Code n < 123 := by decide

/-- `Char.toNat ∘ Char.ofNat` is the identity on codes below 123. -/
theorem char_toNat_ofNat_of_lt : ∀ m, m < 123 → (Char.ofNat m).toNat = m := by decide

/-- Code-level round trip: decoding the encoding of a byte list returns it. -/
theorem b64DecCodes_b64EncCodes :
    ∀ (l : List Nat), (∀ x ∈ l, x < 256) → b64DecCodes (b64EncCodes l) = some l
  | [], _ => rfl
  | [a], h => by
      have ha : a < 256 := h a (by simp)
      have h1 := b64DecCode_b64Code (a / 4) (by omega)
      have h2 := b64DecCode_b64Code (a % 4 * 16) (by omega)
      simp only [b64EncCodes, b64DecCodes, h1, h2]
      simp only [and_self, if_pos, Option.some.injEq, List.cons.injEq, and_true]
      omega
  | [a, b], h => by
      have ha : a < 256 := h a (by simp)
      have hb : b < 256 := h b (by simp)
      have h1 := b64DecCode_b64Code (a / 4) (by omega)
      have h2 := b64DecCode_b64Code (a % 4 * 16 + b / 16) (by omega)
      have h3 := b64DecCode_b64Code (b % 16 * 4) (by omega)
      have hne : b64Code (b % 16 * 4) ≠ 61 := b64Code_ne_61 _ (by omega)
      simp only [b64EncCodes, b64DecCodes, h1, h2, h3]
      rw [if_neg (by simp [hne]), if_pos (by simp)]
      simp only [Option.some.injEq, List.cons.injEq, and_true]
      omega
  | a :: b :: c :: rest, h => by
      have ha : a < 256 := h a (by simp)
      have hb : b < 256 := h b (by simp)
      have hc : c < 256 := h c (by simp)
      have h1 := b64DecCode_b64Code (a / 4) (by omega)
      have h2 := b64DecCode_b64Code (a % 4 * 16 + b / 16) (by omega)
      have h3 := b64DecCode_b64Code (b % 16 * 4 + c / 64) (by omega)
      have h4 := b64DecCode_b64Code (c % 64) (by omega)
      have hne3 : b64Code (b % 16 * 4 + c / 64) ≠ 61 := b64Code_ne_61 _ (by omega)
      have hne4 : b64Code (c % 64) ≠ 61 := b64Code_ne_61 _ (by omega)
      have ih := b64DecCodes_b64EncCodes rest
        (fun x hx => h x (by simp [hx]))
      simp only [b64EncCodes, b64DecCodes, h1, h2, h3, h4, ih]
      rw [if_neg (by simp [hne3]), if_neg (by simp [hne4])]
      simp only [Option.some.injEq, List.cons.injEq, and_true]
      refine ⟨by omega, by omega, by omega⟩

/-- Every code the encoder emits is below 123. -/
theorem b64EncCodes_lt_123 :
    ∀ (l : List Nat), (∀ x ∈ l, x < 256) → ∀ x ∈ b64EncCodes l, x < 123
  | [], _ => by simp [b64EncCodes]
  | [a], h => by
      have ha : a < 256 := h a (by simp)
      intro x hx
      simp only [b64EncCodes, List.mem_cons, List.not_mem_nil, or_false] at hx
      rcases hx with rfl | rfl | rfl | rfl
      · exact b64Code_lt_123 _ (by omega)
      · exact b64Code_lt_123 _ (by omega)
      · omega
      · omega
  | [a, b], h => by
      have ha : a < 256 := h a (by simp)
      have hb : b < 256 := h b (by simp)
      intro x hx
      simp only [b64EncCodes, List.mem_cons, List.not_mem_nil, or_false] at hx
      rcases hx with rfl | rfl | rfl | rfl
      · exact b64Code_lt_123 _ (by omega)
      · exact b64Code_lt_123 _ (by omega)
      · exact b64Code_lt_123 _ (by omega)
      · omega
  | a :: b :: c :: rest, h => by
      have ha : a < 256 := h a (by simp)
      have hb : b < 256 := h b (by simp)
      have hc : c < 256 := h c (by simp)
      have ih := b64EncCodes_lt_123 rest
        (fun x hx => h x (by simp [hx]))
      intro x hx
      simp only [b64EncCodes, List.mem_cons] at hx
      rcases hx with rfl | rfl | rfl | rfl | hx
      · exact b64Code_lt_123 _ (by omega)
      · exact b64Code_lt_123 _ (by omega)
      · exact b64Code_lt_123 _ (by omega)
      · exact b64Code_lt_123 _ (by omega)
      · exact ih x hx

/-- String-level round trip for `arrayBufferToBase64`. -/
theorem b64DecodeString_arrayBufferToBase64 (l : List Nat) (h : ∀ x ∈ l, x < 256) :
    b64DecodeString (arrayBufferToBase64 l) = some l := by
  have hdata : (arrayBufferToBase64 l).data = (b64EncCodes l).map Char.ofNat := rfl
  unfold b64DecodeString
  rw [hdata, List.map_map]
  have hmap : (b64EncCodes l).map (Char.toNat ∘ Char.ofNat) = (b64EncCodes l).map id := by
    apply List.map_congr_left
    intro x hx
    simpa using char_toNat_ofNat_of_lt x (b64EncCodes_lt_123 l h x hx)
  rw [hmap, List.map_id]
  exact b64DecCodes_b64EncCodes l h

/-! ## `formatPhone` helper lemmas -/

/-- When fewer or more than 10 digits remain, the input comes back
unchanged (this also covers `""` and `"Not available"`, which have no
digits at all). -/
theorem formatPhone_eq_self (p : String)
    (h : (p.data.filter Char.isDigit).length ≠ 10) : formatPhone p = p := by
  unfold formatPhone
  by_cases hsp : p = "" ∨ p = "Not available"
  · rw [if_pos hsp]
  · rw [if_neg hsp, if_neg h]

/-- With exactly 10 digits the formatted pattern is produced. -/
theorem formatPhone_of_ten (p : String)
    (h : (p.data.filter Char.isDigit).length = 10) :
    formatPhone p =
      "(" ++ String.mk ((p.data.filter Char.isDigit).take 3) ++ ") " ++
        String.mk (((p.data.filter Char.isDigit).drop 3).take 3) ++ "-" ++
        String.mk ((p.data.filter Char.isDigit).drop 6) := by
  have hsp : ¬(p = "" ∨ p = "Not available") := by
    intro hc
    rcases hc with rfl | rfl <;> revert h <;> decide
  unfold formatPhone
  rw [if_neg hsp, if_pos h]

/-- The digits of the formatted pattern are exactly the digit list it was
built from. -/
theorem filter_digits_formatted (c : List Char) (hc : ∀ x ∈ c, x.isDigit = true) :
    ("(" ++ String.mk (c.take 3) ++ ") " ++ String.mk ((c.drop 3).take 3) ++ "-" ++
      String.mk (c.drop 6)).data.filter Char.isDigit = c := by
  have hmk : ∀ l : List Char, (String.mk l).data = l := fun _ => rfl
  have h1 : ("(" : String).data.filter Char.isDigit = [] := by decide
  have h2 : (") " : String).data.filter Char.isDigit = [] := by decide
  have h3 : ("-" : String).data.filter Char.isDigit = [] := by decide
  have htake : (c.take 3).filter Char.isDigit = c.take 3 :=
    List.filter_eq_self.mpr (fun a ha => hc a (List.take_subset _ _ ha))
  have hmid : ((c.drop 3).take 3).filter Char.isDigit = (c.drop 3).take 3 :=
    List.filter_eq_self.mpr
      (fun a ha => hc a (List.drop_subset _ _ (List.take_subset _ _ ha)))
  have hdrop : (c.drop 6).filter Char.isDigit = c.drop 6 :=
    List.filter_eq_self.mpr (fun a ha => hc a (List.drop_subset _ _ ha))
  simp only [String.data_append, hmk, List.filter_append, h1, h2, h3, htake, hmid,
    hdrop, List.nil_append, List.append_nil]
  have h63 : c.drop 6 = (c.drop 3).drop 3 := by
    rw [List.drop_drop]
  rw [h63, List.append_assoc, List.take_append_drop, List.take_append_drop]

/-! ## CORS and fetch-count case analyses -/

/-- Both permissive CORS headers are present on a response. -/
def hasCorsHeaders (r : HttpResponse) : Prop :=
  r.headers.allowOrigin.isSome = true ∧ r.headers.allowHeaders.isSome = true

theorem scanMedicine_cors (w : ScanMedicineWorld) :
    hasCorsHeaders (scanMedicine w).1 := by
  unfold hasCorsHeaders scanMedicine
  repeat' split
  all_goals simp [jsonResp, corsHeadersPlain]

theorem explainDiagnosis_cors (w : ExplainWorld) :
    hasCorsHeaders (explainDiagnosis w).1 := by
  unfold hasCorsHeaders explainDiagnosis
  repeat' split
  all_goals simp [jsonResp, corsHeadersWithMethods]

theorem skinAnalyze_cors (w : SkinWorld) :
    hasCorsHeaders (skinAnalyze w).1 := by
  unfold hasCorsHeaders skinAnalyze
  dsimp only
  repeat' split
  all_goals simp [jsonResp, withCors]

theorem findDoctorsNpi_cors (w : FindDoctorsNpiWorld) :
    hasCorsHeaders (findDoctorsNpi w).1 := by
  unfold hasCorsHeaders findDoctorsNpi
  repeat' split
  all_goals simp [jsonResp, corsHeadersPlain]

theorem findDoctorsApify_cors (w : FindDoctorsApifyWorld) :
    hasCorsHeaders (findDoctorsApify w).1 := by
  unfold hasCorsHeaders findDoctorsApify
  repeat' split
  all_goals simp [jsonResp, corsHeadersPlain]

theorem sendCustomerEmail_cors (w : SendEmailWorld) :
    hasCorsHeaders (sendCustomerEmail w).1 := by
  unfold hasCorsHeaders sendCustomerEmail
  repeat' split
  all_goals simp [jsonResp, corsHeadersPlain]

theorem scanMedicine_fetch_le_one (w : ScanMedicineWorld) : (scanMedicine w).2 ≤ 1 := by
  unfold scanMedicine
  repeat' split
  all_goals simp

theorem explainDiagnosis_fetch_le_one (w : ExplainWorld) : (explainDiagnosis w).2 ≤ 1 := by
  unfold explainDiagnosis
  repeat' split
  all_goals simp

theorem skinAnalyze_fetch_le_one (w : SkinWorld) : (skinAnalyze w).2.1 ≤ 1 := by
  unfold skinAnalyze
  dsimp only
  repeat' split
  all_goals simp

theorem findDoctorsNpi_fetch_le_one (w : FindDoctorsNpiWorld) : (findDoctorsNpi w).2 ≤ 1 := by
  unfold findDoctorsNpi
  repeat' split
  all_goals simp

theorem findDoctorsApify_fetch_le_one (w : FindDoctorsApifyWorld) :
    (findDoctorsApify w).2 ≤ 1 := by
  unfold findDoctorsApify
  repeat' split
  all_goals simp

theorem sendCustomerEmail_fetch_le_one (w : SendEmailWorld) :
    (sendCustomerEmail w).2 ≤ 1 := by
  unfold sendCustomerEmail
  repeat' split
  all_goals simp

/-! ## Chat wizard invariant -/

/-- Reachability invariant: while the widget is browsing, no issue
description is recorded (the only transition back to browsing clears it). -/
theorem chat_browsing_issue_empty {st : ChatState} (h : ChatReachable st) :
    st.isReportingIssue = false → st.reportedIssue = "" := by
  induction h with
  | init => intro _; rfl
  | step hr e ih =>
    rename_i s
    cases e with
    | typeInput t => exact ih
    | typeEmail t => exact ih
    | pressSend ok =>
      by_cases h1 : s.isReportingIssue = true ∧ s.reportedIssue ≠ ""
      · have hstep : chatStep s (.pressSend ok) = handleEmailSubmit s ok := by
          simp only [chatStep]
          rw [if_pos h1]
        rw [hstep]
        unfold handleEmailSubmit
        by_cases h2 : jsTrim s.email = "" ∨ ¬ strIncludes s.email "@"
        · rw [if_pos h2]; exact ih
        · rw [if_neg h2]
          cases ok with
          | true => intro _; rfl
          | false =>
            dsimp only
            intro hfalse
            rw [h1.1] at hfalse
            cases hfalse
      · by_cases h3 : s.isReportingIssue = true
        · have hstep : chatStep s (.pressSend ok) = handleIssueSubmit s := by
            simp only [chatStep]
            rw [if_neg h1, if_pos h3]
          rw [hstep]
          unfold handleIssueSubmit
          by_cases h4 : jsTrim s.input = ""
          · rw [if_pos h4]; exact ih
          · rw [if_neg h4]
            dsimp only
            intro hfalse
            rw [h3] at hfalse
            cases hfalse
        · have hb : s.isReportingIssue = false := by
            revert h3
            cases s.isReportingIssue <;> simp
          have hempty : s.reportedIssue = "" := ih hb
          have hstep : chatStep s (.pressSend ok) = handleSend s := by
            simp only [chatStep]
            rw [if_neg h1, if_neg h3]
          rw [hstep]
          unfold handleSend
          intro _
          split
          · exact hempty
          · dsimp only
            split
            · exact hempty
            · split <;> exact hempty

/-! # Claim theorems -/

/-- **C6.** The chat widget is a linear wizard: from browsing, a non-empty
message containing an issue keyword moves it to reporting-issue; there, a
non-empty description moves it to collecting-email and records the
description; there, a valid email with a successful send returns it to
browsing with the issue and email cleared; and collecting-email always
holds a non-empty recorded issue description. -/
theorem chat_wizard_transitions (st : ChatState) (hr : ChatReachable st) :
    (∀ sendOk : Bool, browsing st → jsTrim st.input ≠ "" →
      hasIssueKeyword (jsToLower (jsTrim st.input)) = true →
      reportingIssue (chatStep st (.pressSend sendOk))) ∧
    (∀ sendOk : Bool, reportingIssue st → jsTrim st.input ≠ "" →
      collectingEmail (chatStep st (.pressSend sendOk)) ∧
      (chatStep st (.pressSend sendOk)).reportedIssue = jsTrim st.input) ∧
    (collectingEmail st → jsTrim st.email ≠ "" → strIncludes st.email "@" = true →
      browsing (chatStep st (.pressSend true)) ∧
      (chatStep st (.pressSend true)).reportedIssue = "" ∧
      (chatStep st (.pressSend true)).email = "") ∧
    (collectingEmail st → st.reportedIssue ≠ "") := by
  refine ⟨?_, ?_, ?_, fun hce => hce.2⟩
  · intro ok hbr hin hkw
    simp only [browsing] at hbr
    have hempty : st.reportedIssue = "" := chat_browsing_issue_empty hr hbr
    simp [chatStep, hbr, handleSend, hin, hkw, reportingIssue, hempty]
  · intro ok hri hin
    obtain ⟨h1, h2⟩ := hri
    simp [chatStep, h1, h2, handleIssueSubmit, hin, collectingEmail]
  · intro hce hem hat
    obtain ⟨h1, h2⟩ := hce
    simp [chatStep, h1, h2, handleEmailSubmit, hem, hat, browsing]

/-- Witness for C6: a concrete conversation walks the whole wizard —
keyword message, issue description, valid email, successful send — and
ends back in browsing with the issue and email cleared. -/
theorem chat_wizard_transitions_inst :
    reportingIssue
      (chatStep (chatStep initialChatState (.typeInput "found a bug"))
        (.pressSend true)) ∧
    collectingEmail
      (chatStep
        (chatStep
          (chatStep (chatStep initialChatState (.typeInput "found a bug"))
            (.pressSend true))
          (.typeInput "scanner crashes"))
        (.pressSend true)) ∧
    browsing
      (chatStep
        (chatStep
          (chatStep
            (chatStep
              (chatStep (chatStep initialChatState (.typeInput "found a bug"))
                (.pressSend true))
              (.typeInput "scanner crashes"))
            (.pressSend true))
          (.typeEmail "a@b.co"))
        (.pressSend true)) := by
  have h1 : ChatReachable (chatStep initialChatState (.typeInput "found a bug")) :=
    ChatReachable.init.step _
  have h2 := h1.step (ChatEvent.pressSend true)
  have h3 := h2.step (ChatEvent.typeInput "scanner crashes")
  have h4 := h3.step (ChatEvent.pressSend true)
  have h5 := h4.step (ChatEvent.typeEmail "a@b.co")
  refine ⟨(chat_wizard_transitions _ h1).1 true rfl (by decide) (by decide),
    ((chat_wizard_transitions _ h3).2.1 true ⟨rfl, rfl⟩ (by decide)).1,
    ((chat_wizard_transitions _ h5).2.2.1 ⟨rfl, by decide⟩ (by decide) (by decide)).1⟩

/-- **C4.** Every response of every handler — the CORS preflight, every
success response and every error-branch response — carries both permissive
CORS headers (`Access-Control-Allow-Origin`, `Access-Control-Allow-Headers`). -/
theorem all_responses_carry_cors :
    (∀ w : ScanMedicineWorld, hasCorsHeaders (scanMedicine w).1) ∧
    (∀ w : ExplainWorld, hasCorsHeaders (explainDiagnosis w).1) ∧
    (∀ w : SkinWorld, hasCorsHeaders (skinAnalyze w).1) ∧
    (∀ w : FindDoctorsNpiWorld, hasCorsHeaders (findDoctorsNpi w).1) ∧
    (∀ w : FindDoctorsApifyWorld, hasCorsHeaders (findDoctorsApify w).1) ∧
    (∀ w : SendEmailWorld, hasCorsHeaders (sendCustomerEmail w).1) :=
  ⟨scanMedicine_cors, explainDiagnosis_cors, skinAnalyze_cors, findDoctorsNpi_cors,
    findDoctorsApify_cors, sendCustomerEmail_cors⟩

/-- **C7.** Every invocation of every handler performs at most one
outbound HTTP request; in particular a failed outbound request is never
retried within the same invocation. -/
theorem at_most_one_outbound_fetch :
    (∀ w : ScanMedicineWorld, (scanMedicine w).2 ≤ 1) ∧
    (∀ w : ExplainWorld, (explainDiagnosis w).2 ≤ 1) ∧
    (∀ w : SkinWorld, (skinAnalyze w).2.1 ≤ 1) ∧
    (∀ w : FindDoctorsNpiWorld, (findDoctorsNpi w).2 ≤ 1) ∧
    (∀ w : FindDoctorsApifyWorld, (findDoctorsApify w).2 ≤ 1) ∧
    (∀ w : SendEmailWorld, (sendCustomerEmail w).2 ≤ 1) :=
  ⟨scanMedicine_fetch_le_one, explainDiagnosis_fetch_le_one, skinAnalyze_fetch_le_one,
    findDoctorsNpi_fetch_le_one, findDoctorsApify_fetch_le_one,
    sendCustomerEmail_fetch_le_one⟩

/-- **C1 counterexample.** skin-analyze does not pass an upstream 429
through: with a valid request and the AI gateway answering 429, the
handler returns 502. -/
theorem skinAnalyze_maps_429_to_502 :
    (skinAnalyze
      { method := "POST",
        apiKey := some "k",
        form := .ok { file := some {}, symptoms := some "itchy" },
        upstream := .ok { status := 429 } }).1.status = 502 ∧
    ¬ (skinAnalyze
      { method := "POST",
        apiKey := some "k",
        form := .ok { file := some {}, symptoms := some "itchy" },
        upstream := .ok { status := 429 } }).1.status = 429 := by
  decide

/-- **C1 amended.** Upstream 429/402 statuses are not passed through
uniformly: explain-diagnosis passes both 429 and 402 through;
scan-medicine passes 429 through but turns 402 into a 500; skin-analyze
answers 502 and the two find-doctors handlers and send-customer-email
answer 500 for every upstream error status, 429 and 402 included.  Each
error answer carries a JSON error-message body. -/
theorem upstream_error_status_mapping :
    (∀ (w : ExplainWorld) (b : ExplainBody) (u : ExplainUpstream),
      w.method = "POST" → truthyO w.apiKey = true → w.bodyJson = .ok b →
      truthyO b.disease = true → w.upstream = .ok u →
      ((u.status = 429 → (explainDiagnosis w).1.status = 429 ∧
          (explainDiagnosis w).1.body =
            some (errObj "Rate limit exceeded. Please try again later.")) ∧
       (u.status = 402 → (explainDiagnosis w).1.status = 402 ∧
          (explainDiagnosis w).1.body =
            some (errObj "AI credits exhausted. Please add credits.")))) ∧
    (∀ (w : ScanMedicineWorld) (b : ScanMedicineBody) (u : AiUpstream),
      w.method ≠ "OPTIONS" → w.bodyJson = .ok b → truthyO b.image = true →
      truthyO w.apiKey = true → w.upstream = .ok u →
      ((u.status = 429 → (scanMedicine w).1.status = 429 ∧
          (scanMedicine w).1.body =
            some (errObj "Rate limit exceeded. Please try again later.")) ∧
       (u.status = 402 → (scanMedicine w).1.status = 500 ∧
          (scanMedicine w).1.body = some (errObj "API error: 402")))) ∧
    (∀ (w : SkinWorld) (f : SkinForm) (u : ExplainUpstream),
      w.method = "POST" → truthyO w.apiKey = true → w.form = .ok f →
      f.file.isNone = false → jsTrim (f.symptoms.getD "") ≠ "" →
      w.upstream = .ok u → httpOk u.status = false →
      (skinAnalyze w).1.status = 502 ∧
      (skinAnalyze w).1.body = some (errObj "Analysis service error")) ∧
    (∀ (w : FindDoctorsNpiWorld) (b : NpiReqBody) (u : NpiUpstream),
      w.method ≠ "OPTIONS" → w.bodyJson = .ok b →
      (truthyO b.zipCode = true ∨ truthyO b.city = true) →
      w.upstream = .ok u → httpOk u.status = false →
      (findDoctorsNpi w).1.status = 500 ∧
      (findDoctorsNpi w).1.body =
        some (errObj "Failed to fetch from NPI Registry")) ∧
    (∀ (w : FindDoctorsApifyWorld) (b : ApifyReqBody) (u : ApifyUpstream),
      w.method ≠ "OPTIONS" → w.bodyJson = .ok b →
      (truthyO b.pinCode = true ∨ truthyO b.city = true) →
      truthyO w.apifyKey = true → w.upstream = .ok u → httpOk u.status = false →
      (findDoctorsApify w).1.status = 500 ∧
      (findDoctorsApify w).1.body = some (errObj "Failed to fetch from Apify")) ∧
    (∀ (w : SendEmailWorld) (b : EmailReqBody) (u : ResendUpstream),
      w.method ≠ "OPTIONS" → w.bodyJson = .ok b → truthyO w.resendKey = true →
      w.upstream = .ok u → httpOk u.status = false →
      (sendCustomerEmail w).1.status = 500 ∧
      (sendCustomerEmail w).1.body =
        some (errObj (jsOrS u.message "Failed to send email"))) := by
  refine ⟨?_, ?_, ?_, ?_, ?_, ?_⟩
  · intro w b u hm hk hb hd hu
    obtain ⟨method, apiKey, bodyJson, upstream⟩ := w
    simp only at hm hk hb hu
    subst hm; subst hb; subst hu
    constructor <;> intro hst <;>
      simp [explainDiagnosis, hk, hd, hst, jsonResp, httpOk]
  · intro w b u hm hb hi hk hu
    obtain ⟨method, bodyJson, apiKey, upstream⟩ := w
    simp only at hm hb hk hu
    subst hb; subst hu
    constructor <;> intro hst <;>
      (simp [scanMedicine, hm, hi, hk, hst, jsonResp, httpOk]; try rfl)
  · intro w f u hm hk hf hfile hsym hu hst
    obtain ⟨method, origin, apiKey, form, upstream⟩ := w
    simp only at hm hk hf hu
    subst hm; subst hf; subst hu
    simp [skinAnalyze, hk, hfile, hsym, hst, jsonResp]
  · intro w b u hm hb htr hu hst
    obtain ⟨method, bodyJson, upstream⟩ := w
    simp only at hm hb hu
    subst hb; subst hu
    rcases htr with h | h <;> simp [findDoctorsNpi, hm, h, hst, jsonResp]
  · intro w b u hm hb htr hk hu hst
    obtain ⟨method, bodyJson, apifyKey, upstream⟩ := w
    simp only at hm hb hk hu
    subst hb; subst hu
    rcases htr with h | h <;> simp [findDoctorsApify, hm, h, hk, hst, jsonResp]
  · intro w b u hm hb hk hu hst
    obtain ⟨method, bodyJson, resendKey, upstream⟩ := w
    simp only at hm hb hk hu
    subst hb; subst hu
    simp [sendCustomerEmail, hm, hk, hst, jsonResp]

/-- Witness for the amended C1, at concrete worlds with upstream 429/402. -/
theorem upstream_error_status_mapping_inst :
    (explainDiagnosis
      { method := "POST", apiKey := some "k",
        bodyJson := .ok { disease := some "Acne" },
        upstream := .ok { status := 429 } }).1.status = 429 ∧
    (explainDiagnosis
      { method := "POST", apiKey := some "k",
        bodyJson := .ok { disease := some "Acne" },
        upstream := .ok { status := 402 } }).1.status = 402 ∧
    (scanMedicine
      { method := "POST", bodyJson := .ok { image := some "u" },
        apiKey := some "k", upstream := .ok { status := 429 } }).1.status = 429 ∧
    (scanMedicine
      { method := "POST", bodyJson := .ok { image := some "u" },
        apiKey := some "k", upstream := .ok { status := 402 } }).1.status = 500 ∧
    (skinAnalyze
      { method := "POST", apiKey := some "k",
        form := .ok { file := some {}, symptoms := some "itch" },
        upstream := .ok { status := 402 } }).1.status = 502 ∧
    (findDoctorsNpi
      { method := "POST", bodyJson := .ok { zipCode := some "10001" },
        upstream := .ok { status := 429 } }).1.status = 500 ∧
    (findDoctorsApify
      { method := "POST", bodyJson := .ok { pinCode := some "400001" },
        apifyKey := some "k", upstream := .ok { status := 429 } }).1.status = 500 ∧
    (sendCustomerEmail
      { method := "POST", bodyJson := .ok {}, resendKey := some "k",
        upstream := .ok { status := 402 } }).1.status = 500 := by
  obtain ⟨he, hs, hsk, hn, ha, hm⟩ := upstream_error_status_mapping
  refine ⟨((he _ _ _ rfl (by decide) rfl (by decide) rfl).1 rfl).1,
    ((he _ _ _ rfl (by decide) rfl (by decide) rfl).2 rfl).1,
    ((hs _ _ _ (by decide) rfl (by decide) (by decide) rfl).1 rfl).1,
    ((hs _ _ _ (by decide) rfl (by decide) (by decide) rfl).2 rfl).1,
    (hsk _ _ _ rfl (by decide) rfl (by decide) (by decide) rfl (by decide)).1,
    (hn _ _ _ (by decide) rfl (Or.inl (by decide)) rfl (by decide)).1,
    (ha _ _ _ (by decide) rfl (Or.inl (by decide)) (by decide) rfl (by decide)).1,
    (hm _ _ _ (by decide) rfl (by decide) rfl (by decide)).1⟩

/-- **C2.** Whenever a required input is missing — the image file or the
symptoms text in skin-analyze, the image in scan-medicine, the disease in
explain-diagnosis, both location fields in the doctor finders — the
handler returns 400 with a JSON error body and performs no outbound
request.  (For skin-analyze and explain-diagnosis this holds in a
configured deployment: their missing-API-key check runs first; the
no-outbound-request half holds regardless.) -/
theorem missing_input_yields_400 :
    (∀ (w : SkinWorld) (f : SkinForm),
      w.method = "POST" → truthyO w.apiKey = true → w.form = .ok f →
      (f.file = none ∨ jsTrim (f.symptoms.getD "") = "") →
      (skinAnalyze w).1.status = 400 ∧
      (∃ m, (skinAnalyze w).1.body = some (errObj m)) ∧ (skinAnalyze w).2.1 = 0) ∧
    (∀ (w : ScanMedicineWorld) (b : ScanMedicineBody),
      w.method ≠ "OPTIONS" → w.bodyJson = .ok b → truthyO b.image = false →
      (scanMedicine w).1.status = 400 ∧
      (∃ m, (scanMedicine w).1.body = some (errObj m)) ∧ (scanMedicine w).2 = 0) ∧
    (∀ (w : ExplainWorld) (b : ExplainBody),
      w.method = "POST" → truthyO w.apiKey = true → w.bodyJson = .ok b →
      truthyO b.disease = false →
      (explainDiagnosis w).1.status = 400 ∧
      (∃ m, (explainDiagnosis w).1.body = some (errObj m)) ∧
      (explainDiagnosis w).2 = 0) ∧
    (∀ (w : FindDoctorsNpiWorld) (b : NpiReqBody),
      w.method ≠ "OPTIONS" → w.bodyJson = .ok b →
      truthyO b.zipCode = false → truthyO b.city = false →
      (findDoctorsNpi w).1.status = 400 ∧
      (∃ m, (findDoctorsNpi w).1.body = some (errObj m)) ∧
      (findDoctorsNpi w).2 = 0) ∧
    (∀ (w : FindDoctorsApifyWorld) (b : ApifyReqBody),
      w.method ≠ "OPTIONS" → w.bodyJson = .ok b →
      truthyO b.pinCode = false → truthyO b.city = false →
      (findDoctorsApify w).1.status = 400 ∧
      (∃ m, (findDoctorsApify w).1.body = some (errObj m)) ∧
      (findDoctorsApify w).2 = 0) := by
  refine ⟨?_, ?_, ?_, ?_, ?_⟩
  · intro w f hm hk hf hmiss
    obtain ⟨method, origin, apiKey, form, upstream⟩ := w
    simp only at hm hk hf
    subst hm; subst hf
    rcases hmiss with hfile | hsym
    · simp [skinAnalyze, hk, hfile, jsonResp]
    · rcases hfile : f.file with _ | fd
      · simp [skinAnalyze, hk, hfile, jsonResp]
      · simp [skinAnalyze, hk, hfile, hsym, jsonResp]
  · intro w b hm hb hi
    obtain ⟨method, bodyJson, apiKey, upstream⟩ := w
    simp only at hm hb
    subst hb
    simp [scanMedicine, hm, hi, jsonResp]
  · intro w b hm hk hb hd
    obtain ⟨method, apiKey, bodyJson, upstream⟩ := w
    simp only at hm hk hb
    subst hm; subst hb
    simp [explainDiagnosis, hk, hd, jsonResp]
  · intro w b hm hb hz hc
    obtain ⟨method, bodyJson, upstream⟩ := w
    simp only at hm hb
    subst hb
    simp [findDoctorsNpi, hm, hz, hc, jsonResp]
  · intro w b hm hb hz hc
    obtain ⟨method, bodyJson, apifyKey, upstream⟩ := w
    simp only at hm hb
    subst hb
    simp [findDoctorsApify, hm, hz, hc, jsonResp]

/-- Witness for C2 at concrete missing-input requests. -/
theorem missing_input_yields_400_inst :
    (skinAnalyze
      { method := "POST", apiKey := some "k", form := .ok {} }).1.status = 400 ∧
    (skinAnalyze
      { method := "POST", apiKey := some "k",
        form := .ok { file := some {}, symptoms := some "   " } }).2.1 = 0 ∧
    (scanMedicine
      { method := "POST", bodyJson := .ok {}, apiKey := some "k" }).1.status = 400 ∧
    (explainDiagnosis
      { method := "POST", apiKey := some "k", bodyJson := .ok {} }).1.status = 400 ∧
    (findDoctorsNpi { method := "POST", bodyJson := .ok {} }).1.status = 400 ∧
    (findDoctorsApify
      { method := "POST", bodyJson := .ok { city := some "" },
        apifyKey := some "k" }).2 = 0 := by
  obtain ⟨hsk, hs, he, hn, ha⟩ := missing_input_yields_400
  exact ⟨(hsk _ _ rfl (by decide) rfl (Or.inl rfl)).1,
    (hsk _ _ rfl (by decide) rfl (Or.inr (by decide))).2.2,
    (hs _ _ (by decide) rfl (by decide)).1,
    (he _ _ rfl (by decide) rfl (by decide)).1,
    (hn _ _ (by decide) rfl (by decide) (by decide)).1,
    (ha _ _ (by decide) rfl (by decide) (by decide)).2.2⟩

/-- **C3.** Every exception a handler's processing can raise — an
unparseable request body, a rejected outbound fetch, a missing API key
where the handler throws, the email send failing — is caught and answered
with status 500 and a `{ error: message }` JSON body.  (No handler lets
an exception escape: in this embedding every handler is a total function
into responses, so the catch-all branches below are exhaustive.) -/
theorem exceptions_caught_return_500 :
    -- unparseable request body, each handler
    (∀ (w : ScanMedicineWorld) (e : String), w.method ≠ "OPTIONS" →
      w.bodyJson = .error e →
      (scanMedicine w).1 = jsonResp 500 (errObj e) corsHeadersPlain) ∧
    (∀ (w : ExplainWorld) (e : String), w.method = "POST" →
      truthyO w.apiKey = true → w.bodyJson = .error e →
      (explainDiagnosis w).1 =
        jsonResp 500 (errObj "Unknown error occurred") corsHeadersWithMethods) ∧
    (∀ (w : SkinWorld) (e : String), w.method = "POST" →
      truthyO w.apiKey = true → w.form = .error e →
      (skinAnalyze w).1 = jsonResp 500 (errObj "Unknown error") (withCors w.origin)) ∧
    (∀ (w : FindDoctorsNpiWorld) (e : String), w.method ≠ "OPTIONS" →
      w.bodyJson = .error e →
      (findDoctorsNpi w).1 = jsonResp 500 (errObj e) corsHeadersPlain) ∧
    (∀ (w : FindDoctorsApifyWorld) (e : String), w.method ≠ "OPTIONS" →
      w.bodyJson = .error e →
      (findDoctorsApify w).1 = jsonResp 500 (errObj e) corsHeadersPlain) ∧
    (∀ (w : SendEmailWorld) (e : String), w.method ≠ "OPTIONS" →
      w.bodyJson = .error e →
      (sendCustomerEmail w).1 = jsonResp 500 (errObj e) corsHeadersPlain) ∧
    -- rejected outbound fetch, each handler
    (∀ (w : ScanMedicineWorld) (b : ScanMedicineBody) (e : String),
      w.method ≠ "OPTIONS" → w.bodyJson = .ok b → truthyO b.image = true →
      truthyO w.apiKey = true → w.upstream = .error e →
      (scanMedicine w).1 = jsonResp 500 (errObj e) corsHeadersPlain) ∧
    (∀ (w : ExplainWorld) (b : ExplainBody) (e : String),
      w.method = "POST" → truthyO w.apiKey = true → w.bodyJson = .ok b →
      truthyO b.disease = true → w.upstream = .error e →
      (explainDiagnosis w).1 =
        jsonResp 500 (errObj "Unknown error occurred") corsHeadersWithMethods) ∧
    (∀ (w : SkinWorld) (f : SkinForm) (e : String),
      w.method = "POST" → truthyO w.apiKey = true → w.form = .ok f →
      f.file.isNone = false → jsTrim (f.symptoms.getD "") ≠ "" →
      w.upstream = .error e →
      (skinAnalyze w).1 = jsonResp 500 (errObj "Unknown error") (withCors w.origin)) ∧
    (∀ (w : FindDoctorsNpiWorld) (b : NpiReqBody) (e : String),
      w.method ≠ "OPTIONS" → w.bodyJson = .ok b →
      (truthyO b.zipCode = true ∨ truthyO b.city = true) → w.upstream = .error e →
      (findDoctorsNpi w).1 = jsonResp 500 (errObj e) corsHeadersPlain) ∧
    (∀ (w : FindDoctorsApifyWorld) (b : ApifyReqBody) (e : String),
      w.method ≠ "OPTIONS" → w.bodyJson = .ok b →
      (truthyO b.pinCode = true ∨ truthyO b.city = true) →
      truthyO w.apifyKey = true → w.upstream = .error e →
      (findDoctorsApify w).1 = jsonResp 500 (errObj e) corsHeadersPlain) ∧
    (∀ (w : SendEmailWorld) (b : EmailReqBody) (e : String),
      w.method ≠ "OPTIONS" → w.bodyJson = .ok b → truthyO w.resendKey = true →
      w.upstream = .error e →
      (sendCustomerEmail w).1 = jsonResp 500 (errObj e) corsHeadersPlain) ∧
    -- missing API key where the handler throws
    (∀ (w : ScanMedicineWorld) (b : ScanMedicineBody),
      w.method ≠ "OPTIONS" → w.bodyJson = .ok b → truthyO b.image = true →
      truthyO w.apiKey = false →
      (scanMedicine w).1 =
        jsonResp 500 (errObj "LOVABLE_API_KEY is not configured") corsHeadersPlain) ∧
    (∀ (w : SendEmailWorld) (b : EmailReqBody),
      w.method ≠ "OPTIONS" → w.bodyJson = .ok b → truthyO w.resendKey = false →
      (sendCustomerEmail w).1 =
        jsonResp 500 (errObj "RESEND_API_KEY not configured") corsHeadersPlain) ∧
    -- upstream send failure (non-ok Resend response)
    (∀ (w : SendEmailWorld) (b : EmailReqBody) (u : ResendUpstream),
      w.method ≠ "OPTIONS" → w.bodyJson = .ok b → truthyO w.resendKey = true →
      w.upstream = .ok u → httpOk u.status = false →
      (sendCustomerEmail w).1 =
        jsonResp 500 (errObj (jsOrS u.message "Failed to send email"))
          corsHeadersPlain) := by
  refine ⟨?_, ?_, ?_, ?_, ?_, ?_, ?_, ?_, ?_, ?_, ?_, ?_, ?_, ?_, ?_⟩
  · intro w e hm hb
    obtain ⟨method, bodyJson, apiKey, upstream⟩ := w
    simp only at hm hb
    subst hb
    simp [scanMedicine, hm]
  · intro w e hm hk hb
    obtain ⟨method, apiKey, bodyJson, upstream⟩ := w
    simp only at hm hk hb
    subst hm; subst hb
    simp [explainDiagnosis, hk]
  · intro w e hm hk hf
    obtain ⟨method, origin, apiKey, form, upstream⟩ := w
    simp only at hm hk hf
    subst hm; subst hf
    simp [skinAnalyze, hk]
  · intro w e hm hb
    obtain ⟨method, bodyJson, upstream⟩ := w
    simp only at hm hb
    subst hb
    simp [findDoctorsNpi, hm]
  · intro w e hm hb
    obtain ⟨method, bodyJson, apifyKey, upstream⟩ := w
    simp only at hm hb
    subst hb
    simp [findDoctorsApify, hm]
  · intro w e hm hb
    obtain ⟨method, bodyJson, resendKey, upstream⟩ := w
    simp only at hm hb
    subst hb
    simp [sendCustomerEmail, hm]
  · intro w b e hm hb hi hk hu
    obtain ⟨method, bodyJson, apiKey, upstream⟩ := w
    simp only at hm hb hk hu
    subst hb; subst hu
    simp [scanMedicine, hm, hi, hk]
  · intro w b e hm hk hb hd hu
    obtain ⟨method, apiKey, bodyJson, upstream⟩ := w
    simp only at hm hk hb hu
    subst hm; subst hb; subst hu
    simp [explainDiagnosis, hk, hd]
  · intro w f e hm hk hf hfile hsym hu
    obtain ⟨method, origin, apiKey, form, upstream⟩ := w
    simp only at hm hk hf hu
    subst hm; subst hf; subst hu
    simp [skinAnalyze, hk, hfile, hsym]
  · intro w b e hm hb htr hu
    obtain ⟨method, bodyJson, upstream⟩ := w
    simp only at hm hb hu
    subst hb; subst hu
    rcases htr with h | h <;> simp [findDoctorsNpi, hm, h]
  · intro w b e hm hb htr hk hu
    obtain ⟨method, bodyJson, apifyKey, upstream⟩ := w
    simp only at hm hb hk hu
    subst hb; subst hu
    rcases htr with h | h <;> simp [findDoctorsApify, hm, h, hk]
  · intro w b e hm hb hk hu
    obtain ⟨method, bodyJson, resendKey, upstream⟩ := w
    simp only at hm hb hk hu
    subst hb; subst hu
    simp [sendCustomerEmail, hm, hk]
  · intro w b hm hb hi hk
    obtain ⟨method, bodyJson, apiKey, upstream⟩ := w
    simp only at hm hb hk
    subst hb
    simp [scanMedicine, hm, hi, hk]
  · intro w b hm hb hk
    obtain ⟨method, bodyJson, resendKey, upstream⟩ := w
    simp only at hm hb hk
    subst hb
    simp [sendCustomerEmail, hm, hk]
  · intro w b u hm hb hk hu hst
    obtain ⟨method, bodyJson, resendKey, upstream⟩ := w
    simp only at hm hb hk hu
    subst hb; subst hu
    simp [sendCustomerEmail, hm, hk, hst]

/-- Witness for C3 at concrete throwing invocations of each kind. -/
theorem exceptions_caught_return_500_inst :
    (scanMedicine { method := "POST", bodyJson := .error "bad json" }).1.status = 500 ∧
    (explainDiagnosis
      { method := "POST", apiKey := some "k",
        bodyJson := .error "bad json" }).1.status = 500 ∧
    (skinAnalyze
      { method := "POST", apiKey := some "k",
        form := .error "bad form" }).1.status = 500 ∧
    (findDoctorsNpi { method := "POST", bodyJson := .error "bad json" }).1.status = 500 ∧
    (findDoctorsApify { method := "POST", bodyJson := .error "bad json" }).1.status = 500 ∧
    (sendCustomerEmail { method := "POST", bodyJson := .error "bad json" }).1.status = 500 ∧
    (scanMedicine
      { method := "POST", bodyJson := .ok { image := some "u" },
        apiKey := some "k", upstream := .error "network down" }).1.status = 500 ∧
    (explainDiagnosis
      { method := "POST", apiKey := some "k",
        bodyJson := .ok { disease := some "Acne" },
        upstream := .error "network down" }).1.status = 500 ∧
    (skinAnalyze
      { method := "POST", apiKey := some "k",
        form := .ok { file := some {}, symptoms := some "itch" },
        upstream := .error "network down" }).1.status = 500 ∧
    (findDoctorsNpi
      { method := "POST", bodyJson := .ok { zipCode := some "10001" },
        upstream := .error "network down" }).1.status = 500 ∧
    (findDoctorsApify
      { method := "POST", bodyJson := .ok { pinCode := some "400001" },
        apifyKey := some "k", upstream := .error "network down" }).1.status = 500 ∧
    (sendCustomerEmail
      { method := "POST", bodyJson := .ok {}, resendKey := some "k",
        upstream := .error "network down" }).1.status = 500 ∧
    (scanMedicine
      { method := "POST", bodyJson := .ok { image := some "u" } }).1.status = 500 ∧
    (sendCustomerEmail { method := "POST", bodyJson := .ok {} }).1.status = 500 ∧
    (sendCustomerEmail
      { method := "POST", bodyJson := .ok {}, resendKey := some "k",
        upstream := .ok { status := 422 } }).1.body =
      some (errObj "Failed to send email") := by
  obtain ⟨p1, p2, p3, p4, p5, p6, f1, f2, f3, f4, f5, f6, k1, k2, s1⟩ :=
    exceptions_caught_return_500
  refine ⟨?_, ?_, ?_, ?_, ?_, ?_, ?_, ?_, ?_, ?_, ?_, ?_, ?_, ?_, ?_⟩
  · rw [p1 _ "bad json" (by decide) rfl]; rfl
  · rw [p2 _ "bad json" rfl (by decide) rfl]; rfl
  · rw [p3 _ "bad form" rfl (by decide) rfl]; rfl
  · rw [p4 _ "bad json" (by decide) rfl]; rfl
  · rw [p5 _ "bad json" (by decide) rfl]; rfl
  · rw [p6 _ "bad json" (by decide) rfl]; rfl
  · rw [f1 _ _ "network down" (by decide) rfl (by decide) (by decide) rfl]; rfl
  · rw [f2 _ _ "network down" rfl (by decide) rfl (by decide) rfl]; rfl
  · rw [f3 _ _ "network down" rfl (by decide) rfl (by decide) (by decide) rfl]; rfl
  · rw [f4 _ _ "network down" (by decide) rfl (Or.inl (by decide)) rfl]; rfl
  · rw [f5 _ _ "network down" (by decide) rfl (Or.inl (by decide)) (by decide) rfl]; rfl
  · rw [f6 _ _ "network down" (by decide) rfl (by decide) rfl]; rfl
  · rw [k1 _ _ (by decide) rfl (by decide) (by decide)]; rfl
  · rw [k2 _ _ (by decide) rfl (by decide)]; rfl
  · rw [s1 _ _ _ (by decide) rfl (by decide) rfl (by decide)]; rfl

/-- **C8 counterexample.** The empty string fails `JSON.parse`, yet
explain-diagnosis does not answer 200 there: `!content` catches it first
and the handler returns 502 `Invalid AI response`. -/
theorem explain_empty_content_yields_502 :
    (explainDiagnosis
      { method := "POST",
        apiKey := some "k",
        bodyJson := .ok { disease := some "Eczema" },
        upstream := .ok { status := 200, content := some "",
                          parsedContent := none } }).1.status = 502 ∧
    ¬ (explainDiagnosis
      { method := "POST",
        apiKey := some "k",
        bodyJson := .ok { disease := some "Eczema" },
        upstream := .ok { status := 200, content := some "",
                          parsedContent := none } }).1.status = 200 := by
  decide

/-- **C8 amended.** In explain-diagnosis, when the gateway answers an
initial-explanation request (no `question`) successfully and the message
content is a *non-empty* string that fails to parse as JSON, the handler
still returns 200 with the fallback body `{ explanation,
recommendations: [], causes: [], precautions: [], severity: "Unknown",
suggestedDoctor: "Dermatologist" }`; an empty content never reaches the
parse — the `!content` guard answers 502 `Invalid AI response` instead. -/
theorem explain_fallback_on_unparseable_content
    (w : ExplainWorld) (b : ExplainBody) (u : ExplainUpstream) (content : String)
    (hm : w.method = "POST") (hk : truthyO w.apiKey = true)
    (hb : w.bodyJson = .ok b) (hd : truthyO b.disease = true)
    (hq : truthyO b.question = false) (hu : w.upstream = .ok u)
    (hst : httpOk u.status = true) (hc : u.content = some content)
    (hp : u.parsedContent = none) :
    (content ≠ "" →
      (explainDiagnosis w).1.status = 200 ∧
      (explainDiagnosis w).1.body = some (.obj [
        ("explanation", .str content),
        ("recommendations", .arr []),
        ("causes", .arr []),
        ("precautions", .arr []),
        ("severity", .str "Unknown"),
        ("suggestedDoctor", .str "Dermatologist")])) ∧
    (content = "" →
      (explainDiagnosis w).1.status = 502 ∧
      (explainDiagnosis w).1.body = some (errObj "Invalid AI response")) := by
  obtain ⟨method, apiKey, bodyJson, upstream⟩ := w
  simp only at hm hk hb hu
  subst hm
  subst hb
  subst hu
  constructor <;> intro hce <;>
    simp [explainDiagnosis, hk, hd, hq, hst, hc, hp, hce, jsonResp]

/-- Witness for C8 at concrete worlds: a non-empty unparseable content
falls back to 200, the empty content is turned away with 502. -/
theorem explain_fallback_on_unparseable_content_inst :
    (explainDiagnosis
      { method := "POST",
        apiKey := some "k",
        bodyJson := .ok { disease := some "Eczema" },
        upstream := .ok { status := 200, content := some "plain text answer",
                          parsedContent := none } }).1.status = 200 ∧
    (explainDiagnosis
      { method := "POST",
        apiKey := some "k",
        bodyJson := .ok { disease := some "Eczema" },
        upstream := .ok { status := 200, content := some "",
                          parsedContent := none } }).1.status = 502 := by
  constructor
  · exact ((explain_fallback_on_unparseable_content _ _ _ "plain text answer"
      rfl (by decide) rfl (by decide) (by decide) rfl (by decide) rfl rfl).1
      (by decide)).1
  · exact ((explain_fallback_on_unparseable_content _ _ _ ""
      rfl (by decide) rfl (by decide) (by decide) rfl (by decide) rfl rfl).2
      rfl).1

/-- **C5.** In the reshaped doctor records, upstream fields that are
absent default to their placeholders: NPI address to
`"Address not available"`, phone to `"Not available"`, specialty to
`"Dermatology"`, and city/state/zip to `""`; Apify name to `"Unknown"`
and address to `"Address not available"`. -/
theorem doctor_optional_field_defaults :
    (∀ r : NpiResult,
      ((selectNpiAddress r.addresses).address_1 = none →
        (formatNpiDoctor r).address = "Address not available") ∧
      ((selectNpiAddress r.addresses).telephone_number = none →
        (formatNpiDoctor r).phone = "Not available") ∧
      ((r.taxonomies.bind List.head?).bind NpiTaxonomy.desc = none →
        (formatNpiDoctor r).specialty = "Dermatology") ∧
      ((selectNpiAddress r.addresses).city = none → (formatNpiDoctor r).city = "") ∧
      ((selectNpiAddress r.addresses).state = none → (formatNpiDoctor r).state = "") ∧
      ((selectNpiAddress r.addresses).postal_code = none →
        (formatNpiDoctor r).zip = "")) ∧
    (∀ (reqCity : Option String) (p : ApifyPlace),
      (p.title = none → p.name = none → (formatApifyPlace reqCity p).name = "Unknown") ∧
      (p.address = none → p.street = none →
        p.location.bind ApifyLocation.address = none →
        (formatApifyPlace reqCity p).address = "Address not available")) := by
  constructor
  · intro r
    refine ⟨fun h => ?_, fun h => ?_, fun h => ?_, fun h => ?_, fun h => ?_, fun h => ?_⟩ <;>
      simp [formatNpiDoctor, jsOrS, h]
  · intro reqCity p
    constructor
    · intro h1 h2
      simp [formatApifyPlace, jsOrS, jsOrO, truthyO, h1, h2]
    · intro h1 h2 h3
      simp [formatApifyPlace, jsOrS, jsOrO, truthyO, h1, h2, h3]

/-- Witness for C5: the all-absent NPI record and Apify place produce all
the placeholders. -/
theorem doctor_optional_field_defaults_inst :
    (formatNpiDoctor {}).address = "Address not available" ∧
    (formatNpiDoctor {}).phone = "Not available" ∧
    (formatNpiDoctor {}).specialty = "Dermatology" ∧
    (formatNpiDoctor {}).city = "" ∧
    (formatNpiDoctor {}).state = "" ∧
    (formatNpiDoctor {}).zip = "" ∧
    (formatApifyPlace none {}).name = "Unknown" ∧
    (formatApifyPlace none {}).address = "Address not available" := by
  obtain ⟨hn, ha⟩ := doctor_optional_field_defaults
  exact ⟨(hn {}).1 rfl, (hn {}).2.1 rfl, (hn {}).2.2.1 rfl, (hn {}).2.2.2.1 rfl,
    (hn {}).2.2.2.2.1 rfl, (hn {}).2.2.2.2.2 rfl,
    (ha none {}).1 rfl rfl, (ha none {}).2 rfl rfl rfl⟩

/-- **C10.** `formatPhone` returns `(abc) def-ghij` whenever its input,
after removing all non-digit characters, has exactly 10 digits, and
returns the input unchanged otherwise (which covers the empty string and
the `"Not available"` placeholder, both digit-free); consequently it is
idempotent. -/
theorem formatPhone_ten_digit_spec (p : String) :
    ((p.data.filter Char.isDigit).length = 10 →
      formatPhone p =
        "(" ++ String.mk ((p.data.filter Char.isDigit).take 3) ++ ") " ++
          String.mk (((p.data.filter Char.isDigit).drop 3).take 3) ++ "-" ++
          String.mk ((p.data.filter Char.isDigit).drop 6)) ∧
    ((p.data.filter Char.isDigit).length ≠ 10 → formatPhone p = p) ∧
    formatPhone (formatPhone p) = formatPhone p := by
  refine ⟨formatPhone_of_ten p, formatPhone_eq_self p, ?_⟩
  by_cases hlen : (p.data.filter Char.isDigit).length = 10
  · have hcdig : ∀ x ∈ p.data.filter Char.isDigit, Char.isDigit x = true :=
      fun x hx => List.of_mem_filter hx
    have hF := filter_digits_formatted (p.data.filter Char.isDigit) hcdig
    have hsame : ∀ q : String,
        q.data.filter Char.isDigit = p.data.filter Char.isDigit →
        formatPhone q =
          "(" ++ String.mk ((p.data.filter Char.isDigit).take 3) ++ ") " ++
            String.mk (((p.data.filter Char.isDigit).drop 3).take 3) ++ "-" ++
            String.mk ((p.data.filter Char.isDigit).drop 6) := by
      intro q hq
      rw [formatPhone_of_ten q (by rw [hq]; exact hlen), hq]
    rw [hsame p rfl]
    exact hsame _ hF
  · rw [formatPhone_eq_self p hlen]
    exact formatPhone_eq_self p hlen

/-- Witness for C10: a 10-digit phone number is formatted (and the
formatted form is a fixed point), the placeholder comes back unchanged. -/
theorem formatPhone_ten_digit_spec_inst :
    formatPhone "555-123-4567" = "(555) 123-4567" ∧
    formatPhone "Not available" = "Not available" := by
  constructor
  · exact ((formatPhone_ten_digit_spec "555-123-4567").1 (by decide)).trans (by decide)
  · exact (formatPhone_ten_digit_spec "Not available").2.1 (by decide)

/-- **C9.** `arrayBufferToBase64` computes the standard base64 encoding —
decoding its output returns exactly the original bytes — and skin-analyze
forwards the upload to the AI gateway as a data URL
`data:<mime>;base64,<encoding>`, where the mime defaults to `image/jpeg`
when the uploaded file carries no content type. -/
theorem arrayBufferToBase64_roundtrip_dataUrl :
    (∀ (bytes : List Nat), (∀ x ∈ bytes, x < 256) →
      b64DecodeString (arrayBufferToBase64 bytes) = some bytes) ∧
    (∀ (w : SkinWorld) (f : SkinForm) (fd : FileData),
      w.method = "POST" → truthyO w.apiKey = true → w.form = .ok f →
      f.file = some fd → jsTrim (f.symptoms.getD "") ≠ "" →
      (skinAnalyze w).2.2 =
        some ("data:" ++ (if fd.type = "" then "image/jpeg" else fd.type) ++
          ";base64," ++ arrayBufferToBase64 fd.bytes)) := by
  refine ⟨b64DecodeString_arrayBufferToBase64, ?_⟩
  intro w f fd hm hk hform hfile hsym
  obtain ⟨method, origin, apiKey, form, upstream⟩ := w
  simp only at hm hk hform hsym ⊢
  subst hm
  subst hform
  cases upstream with
  | error e =>
    simp [skinAnalyze, hk, hfile, hsym, skinDataUrl, skinMime]
  | ok u =>
    by_cases hst : httpOk u.status = true
    · cases hcont : u.content with
      | none =>
        simp [skinAnalyze, hk, hfile, hsym, hst, hcont, skinDataUrl, skinMime]
      | some s =>
        cases hpc : u.parsedContent <;>
          (simp [skinAnalyze, hk, hfile, hsym, hst, hcont, hpc, skinDataUrl, skinMime];
            try (split <;> rfl))
    · simp [skinAnalyze, hk, hfile, hsym, hst, skinDataUrl, skinMime]

/-- Witness for C9: a concrete 4-byte upload round-trips and is forwarded
as a `data:image/jpeg;base64,...` URL. -/
theorem arrayBufferToBase64_roundtrip_dataUrl_inst :
    b64DecodeString (arrayBufferToBase64 [0, 255, 16, 77]) = some [0, 255, 16, 77] ∧
    (skinAnalyze
      { method := "POST",
        apiKey := some "k",
        form := .ok { file := some { type := "", bytes := [0, 255, 16, 77] },
                      symptoms := some " itchy rash " },
        upstream := .ok {} }).2.2 = some "data:image/jpeg;base64,AP8QTQ==" := by
  constructor
  · exact arrayBufferToBase64_roundtrip_dataUrl.1 [0, 255, 16, 77] (by decide)
  · exact (arrayBufferToBase64_roundtrip_dataUrl.2 _ _ _ rfl (by decide) rfl rfl
      (by decide)).trans (by decide)

end MediBot
